import Mathlib

/-!
Verification of the DocuParse Pro backend (`main.py`, `schemas.py`).

The embedding models the request handlers of `main.py` as pure Lean
functions.  Python exceptions are modelled with `Except String`; the
external document store (the optional `database` module) is modelled as a
`Database` record whose operations may fail; JSON values are modelled by
the inductive `Json` (numeric literals as exact rationals); observable
side effects of the extraction handler (reading the upload, attempting an
audit write) are returned as an explicit event trace.
-/

/-- JSON-like values, as produced by the handlers (`Dict[str, Any]`). -/
inductive Json where
  | str (s : String)
  | num (q : Rat)
  | obj (fields : List (String × Json))
  | arr (elems : List Json)

/-- Uploaded bytes; only their length is ever inspected by the code. -/
abbrev Bytes := List Nat

/-- An uploaded file (`UploadFile`): filename, raw content, declared
content type. -/
structure UploadFile where
  filename : String
  content : Bytes
  content_type : Option String

/-- The `meta` dictionary passed to the audit logger:
`{"content_type": file.content_type}`. -/
structure Meta where
  content_type : Option String
deriving DecidableEq

/-- `schemas.ExtractionJob`: the audit record persisted by `log_job`. -/
structure ExtractionJob where
  job_type : String
  filename : String
  size_bytes : Option Int
  status : String
  result_summary : Option String
  meta : Option Meta

/-- A value held in a store record, as returned by `get_documents`.
`timestamp iso` models a value with an `isoformat()` method returning
`iso`; `plain v strRepr` models any other value `v` whose Python
`str(...)` rendering is `strRepr`. -/
inductive StoreValue where
  | timestamp (iso : String)
  | plain (v : Json) (strRepr : String)

/-- A raw record (dict) returned by the document store. -/
abbrev StoreRecord := List (String × StoreValue)

/-- The optional external document store (`database` module).
`importOk` is whether `from database import ...` succeeds; the two
operations may fail with an arbitrary exception. -/
structure Database where
  importOk : Bool
  create_document : String → ExtractionJob → Except String Unit
  get_documents : String → Int → Except String (List StoreRecord)

/-- `ALLOWED_EXTRACT_TYPES`: job type → human-readable tool name. -/
def ALLOWED_EXTRACT_TYPES : List (String × String) :=
  [("bank_statement", "Bank Statement Converter"),
   ("invoice", "Invoice Scanner"),
   ("receipt", "Receipt Scanner"),
   ("salary_slip", "Salary Slip Converter"),
   ("credit_card", "Credit Card Statement Converter"),
   ("table_extract", "Document Table Extractor")]

/-- The `Literal[...]` values accepted by `ExtractionJob.job_type` in
`schemas.py`. -/
def EXTRACTION_JOB_TYPES : List String :=
  ["bank_statement", "invoice", "receipt", "salary_slip", "credit_card",
   "table_extract", "summarize", "translate", "chat"]

/-- Constructing a `schemas.ExtractionJob`: pydantic validates the
`job_type` and `status` literals and raises `ValidationError` otherwise. -/
def mkExtractionJob (job_type filename : String) (size : Option Int)
    (status : String) (summary : String) (meta : Option Meta) :
    Except String ExtractionJob :=
  if EXTRACTION_JOB_TYPES.contains job_type &&
      (status == "success" || status == "error") then
    .ok ⟨job_type, filename, size, status, some summary, meta⟩
  else
    .error "ValidationError"

/-- The body of `log_job` before its `except` clause: import the store
module, build the record, insert it.  Any step may raise. -/
def log_job_body (db : Database) (job_type filename : String)
    (size : Option Int) (status : String) (summary : String)
    (meta : Option Meta) : Except String Unit := do
  if !db.importOk then
    throw "ImportError"
  let doc ← mkExtractionJob job_type filename size status summary meta
  db.create_document "extractionjob" doc

/-- `log_job`: runs `log_job_body` and swallows every exception
(`except Exception: pass`). -/
def log_job (db : Database) (job_type filename : String) (size : Option Int)
    (status : String) (summary : String) (meta : Option Meta) :
    Except String Unit :=
  match log_job_body db job_type filename size status summary meta with
  | .ok _ => .ok ()
  | .error _ => .ok ()

/-- The response model `ExtractResponse`. -/
structure ExtractResponse where
  tool : String
  filename : String
  size_bytes : Option Int
  content_type : Option String
  summary : String
  data : Json

/-- What a call to the extraction handler produces: a response, an
`HTTPException`, or an uncaught internal exception. -/
inductive ExtractOutcome where
  | response (r : ExtractResponse)
  | httpError (status : Nat) (detail : String)
  | raised (e : String)

/-- Observable side effects of the extraction handler. -/
inductive Event where
  | fileRead
  | auditAttempt
deriving DecidableEq

/-- The `if job_type == ... / elif ... / else` chain of `extract_document`
that selects the canned demo payload (the final `else` is the
`table_extract` branch, as in the code). -/
def demoData (job_type : String) : Json :=
  if job_type = "bank_statement" then
        .obj [("account_name", .str "Demo Account"),
              ("account_number", .str "XXXX-1234"),
              ("currency", .str "USD"),
              ("transactions", .arr
                [.obj [("date", .str "2025-01-04"),
                       ("description", .str "Coffee Shop"),
                       ("debit", .num 4.5), ("credit", .num 0.0),
                       ("balance", .num 1025.5)],
                 .obj [("date", .str "2025-01-06"),
                       ("description", .str "Salary"),
                       ("debit", .num 0.0), ("credit", .num 3000.0),
                       ("balance", .num 4025.5)]])]
      else if job_type = "credit_card" then
        .obj [("cardholder", .str "Demo User"),
              ("last4", .str "4242"),
              ("currency", .str "USD"),
              ("transactions", .arr
                [.obj [("date", .str "2025-01-03"),
                       ("merchant", .str "Online Store"),
                       ("amount", .num (-89.99)),
                       ("category", .str "Shopping")],
                 .obj [("date", .str "2025-01-07"),
                       ("merchant", .str "Airline"),
                       ("amount", .num (-240.0)),
                       ("category", .str "Travel")]])]
      else if job_type = "invoice" then
        .obj [("merchant", .str "Acme Corp"),
              ("invoice_number", .str "INV-1001"),
              ("issue_date", .str "2025-01-02"),
              ("due_date", .str "2025-01-16"),
              ("items", .arr
                [.obj [("description", .str "Widget A"), ("qty", .num 2),
                       ("price", .num 49.99), ("total", .num 99.98)],
                 .obj [("description", .str "Service Fee"), ("qty", .num 1),
                       ("price", .num 15.0), ("total", .num 15.0)]]),
              ("subtotal", .num 114.98),
              ("tax", .num 9.2),
              ("grand_total", .num 124.18)]
      else if job_type = "receipt" then
        .obj [("merchant", .str "Corner Market"),
              ("date", .str "2025-01-05"),
              ("items", .arr
                [.obj [("name", .str "Bananas"), ("qty", .num 3),
                       ("unit_price", .num 0.59), ("total", .num 1.77)],
                 .obj [("name", .str "Milk"), ("qty", .num 1),
                       ("unit_price", .num 2.49), ("total", .num 2.49)]]),
              ("total", .num 4.26)]
      else if job_type = "salary_slip" then
        .obj [("employee", .str "Demo Employee"),
              ("month", .str "2025-01"),
              ("earnings", .obj [("basic", .num 2500.0), ("hra", .num 800.0),
                                 ("bonus", .num 200.0)]),
              ("deductions", .obj [("tax", .num 450.0),
                                   ("insurance", .num 50.0)]),
              ("net_pay", .num 3000.0)]
      else -- table_extract
        .obj [("tables", .arr
                [.obj [("name", .str "Table 1"),
                       ("columns", .arr [.str "Date", .str "Description",
                                         .str "Amount"]),
                       ("rows", .arr
                         [.arr [.str "2025-01-01", .str "Opening Balance",
                                .str "1000.00"],
                          .arr [.str "2025-01-02", .str "Subscription",
                                .str "-12.00"]])]])]

/-- `extract_document`: validate the job type, read the upload, build the
canned per-type payload, compose the summary, attempt the audit write,
return the envelope.  The second component is the trace of side effects. -/
def extract_document (db : Database) (job_type : String) (file : UploadFile)
    (options : Option String) : ExtractOutcome × List Event :=
  match ALLOWED_EXTRACT_TYPES.lookup job_type with
  | none => (.httpError 400 "Unsupported job type", [])
  | some toolName =>
    let content := file.content
    let size : Int := content.length
    let demo_data : Json := demoData job_type
    let summary :=
      "Parsed " ++ toolName ++ " for " ++ file.filename ++ " (demo)"
    match log_job db job_type file.filename (some size) "success" summary
        (some ⟨file.content_type⟩) with
    | .error e => (.raised e, [.fileRead, .auditAttempt])
    | .ok _ =>
      (.response ⟨toolName, file.filename, some size, file.content_type,
                  summary, demo_data⟩,
       [.fileRead, .auditAttempt])

/-- A cleaned job listing: `{"items": [...]}`. -/
structure JobsResponse where
  items : List (List (String × Json))

/-- `_clean` inside `list_jobs`: values with `isoformat` become their ISO
string; the `_id` value is passed through `str(...)`; everything else is
returned unchanged. -/
def cleanRecord (d : StoreRecord) : List (String × Json) :=
  d.map fun kv =>
    match kv.2 with
    | .timestamp iso => (kv.1, Json.str iso)
    | .plain v strRepr =>
        (kv.1, if kv.1 == "_id" then Json.str strRepr else v)

/-- The body of `list_jobs` before its `except` clause. -/
def list_jobs_body (db : Database) (limit : Int) :
    Except String JobsResponse := do
  if !db.importOk then
    throw "ImportError"
  let docs ← db.get_documents "extractionjob" limit
  pure ⟨docs.map cleanRecord⟩

/-- `list_jobs`: any failure degrades to `{"items": []}`. -/
def list_jobs (db : Database) (limit : Int) : JobsResponse :=
  match list_jobs_body db limit with
  | .ok r => r
  | .error _ => ⟨[]⟩

/-- Python `str.split(". ")` on the character list of a string:
left-to-right, non-overlapping occurrences of the two-character
separator `". "` delimit the fragments. -/
def splitDotSpace : List Char → List (List Char)
  | '.' :: ' ' :: rest => [] :: splitDotSpace rest
  | c :: rest =>
    match splitDotSpace rest with
    | f :: fs => (c :: f) :: fs
    | [] => [[c]]
  | [] => [[]]

/-- Python `str.strip()`: drop leading and trailing whitespace. -/
def pyStrip (l : List Char) : List Char :=
  ((l.dropWhile Char.isWhitespace).reverse.dropWhile Char.isWhitespace).reverse

/-- Python list slicing `l[:n]` for an arbitrary (possibly negative)
`int` bound `n`. -/
def pySliceTo (n : Int) (l : List (List Char)) : List (List Char) :=
  if 0 ≤ n then l.take n.toNat
  else l.take (l.length - (-n).toNat)

/-- `summarize`: strip the text, split on `". "`, keep the first
`max_sentences` fragments, rejoin with `". "`; an empty result yields the
fallback string. -/
def summarize (text : String) (max_sentences : Int) : String :=
  let snippet := pySliceTo max_sentences (splitDotSpace (pyStrip text.data))
  let joined := List.intercalate ['.', ' '] snippet
  if joined.isEmpty then "No content provided." else String.mk joined

/-! ## Spec-side definitions

The shape table of §4.1 and the summarizer of §4.4, written from the
spec's words, to be compared with the handler output. -/

/-- Field lookup in a JSON object. -/
def getField (j : Json) (k : String) : Option Json :=
  match j with
  | .obj fields => fields.lookup k
  | _ => none

/-- Whether a JSON value is a string. -/
def isStr : Json → Bool
  | .str _ => true
  | _ => false

/-- Whether a JSON value is a number. -/
def isNum : Json → Bool
  | .num _ => true
  | _ => false

/-- Whether a JSON value is an array all of whose elements satisfy `p`. -/
def allElems (j : Json) (p : Json → Bool) : Bool :=
  match j with
  | .arr es => es.all p
  | _ => false

/-- Whether `j` is an object whose key set is exactly `ks`. -/
def hasKeySet (j : Json) (ks : List String) : Bool :=
  match j with
  | .obj fields =>
    let present := fields.map Prod.fst
    ks.all present.contains && present.all ks.contains
  | _ => false

/-- Whether `j` is an object whose field `k` exists and satisfies `p`. -/
def fieldSat (j : Json) (k : String) (p : Json → Bool) : Bool :=
  match getField j k with
  | some v => p v
  | none => false

/-- §4.1 table: a bank-statement transaction element. -/
def bankTxnShape (j : Json) : Bool :=
  hasKeySet j ["date", "description", "debit", "credit", "balance"] &&
  fieldSat j "date" isStr && fieldSat j "description" isStr &&
  fieldSat j "debit" isNum && fieldSat j "credit" isNum &&
  fieldSat j "balance" isNum

/-- §4.1 table: `bank_statement` data shape. -/
def bankStatementShape (j : Json) : Bool :=
  hasKeySet j ["account_name", "account_number", "currency",
               "transactions"] &&
  fieldSat j "account_name" isStr && fieldSat j "account_number" isStr &&
  fieldSat j "currency" isStr &&
  fieldSat j "transactions" (fun t => allElems t bankTxnShape)

/-- §4.1 table: a credit-card transaction element. -/
def cardTxnShape (j : Json) : Bool :=
  hasKeySet j ["date", "merchant", "amount", "category"] &&
  fieldSat j "date" isStr && fieldSat j "merchant" isStr &&
  fieldSat j "amount" isNum && fieldSat j "category" isStr

/-- §4.1 table: `credit_card` data shape. -/
def creditCardShape (j : Json) : Bool :=
  hasKeySet j ["cardholder", "last4", "currency", "transactions"] &&
  fieldSat j "cardholder" isStr && fieldSat j "last4" isStr &&
  fieldSat j "currency" isStr &&
  fieldSat j "transactions" (fun t => allElems t cardTxnShape)

/-- §4.1 table: an invoice line item. -/
def invoiceItemShape (j : Json) : Bool :=
  hasKeySet j ["description", "qty", "price", "total"] &&
  fieldSat j "description" isStr && fieldSat j "qty" isNum &&
  fieldSat j "price" isNum && fieldSat j "total" isNum

/-- §4.1 table: `invoice` data shape. -/
def invoiceShape (j : Json) : Bool :=
  hasKeySet j ["merchant", "invoice_number", "issue_date", "due_date",
               "items", "subtotal", "tax", "grand_total"] &&
  fieldSat j "merchant" isStr && fieldSat j "invoice_number" isStr &&
  fieldSat j "issue_date" isStr && fieldSat j "due_date" isStr &&
  fieldSat j "items" (fun t => allElems t invoiceItemShape) &&
  fieldSat j "subtotal" isNum && fieldSat j "tax" isNum &&
  fieldSat j "grand_total" isNum

/-- §4.1 table: a receipt line item. -/
def receiptItemShape (j : Json) : Bool :=
  hasKeySet j ["name", "qty", "unit_price", "total"] &&
  fieldSat j "name" isStr && fieldSat j "qty" isNum &&
  fieldSat j "unit_price" isNum && fieldSat j "total" isNum

/-- §4.1 table: `receipt` data shape. -/
def receiptShape (j : Json) : Bool :=
  hasKeySet j ["merchant", "date", "items", "total"] &&
  fieldSat j "merchant" isStr && fieldSat j "date" isStr &&
  fieldSat j "items" (fun t => allElems t receiptItemShape) &&
  fieldSat j "total" isNum

/-- §4.1 table: `salary_slip` data shape. -/
def salarySlipShape (j : Json) : Bool :=
  hasKeySet j ["employee", "month", "earnings", "deductions", "net_pay"] &&
  fieldSat j "employee" isStr && fieldSat j "month" isStr &&
  fieldSat j "earnings" (fun e =>
    hasKeySet e ["basic", "hra", "bonus"] &&
    fieldSat e "basic" isNum && fieldSat e "hra" isNum &&
    fieldSat e "bonus" isNum) &&
  fieldSat j "deductions" (fun d =>
    hasKeySet d ["tax", "insurance"] &&
    fieldSat d "tax" isNum && fieldSat d "insurance" isNum) &&
  fieldSat j "net_pay" isNum

/-- §4.1 table: a single extracted table. -/
def tableShape (j : Json) : Bool :=
  hasKeySet j ["name", "columns", "rows"] &&
  fieldSat j "name" isStr &&
  fieldSat j "columns" (fun c => allElems c isStr) &&
  fieldSat j "rows" (fun r => allElems r (fun row => allElems row isStr))

/-- §4.1 table: `table_extract` data shape. -/
def tableExtractShape (j : Json) : Bool :=
  hasKeySet j ["tables"] &&
  fieldSat j "tables" (fun t => allElems t tableShape)

/-- The §4.1 field-shape table, indexed by job type. -/
def specShape (job_type : String) (j : Json) : Bool :=
  if job_type = "bank_statement" then bankStatementShape j
  else if job_type = "credit_card" then creditCardShape j
  else if job_type = "invoice" then invoiceShape j
  else if job_type = "receipt" then receiptShape j
  else if job_type = "salary_slip" then salarySlipShape j
  else if job_type = "table_extract" then tableExtractShape j
  else false

/-- §4.4 summarizer, from the spec's words: split the stripped text on
`". "`, take the first `max_sentences` fragments, rejoin with `". "`;
an empty result yields the fallback string. -/
def summarizeSpec (text : String) (max_sentences : Nat) : String :=
  let joined := List.intercalate ['.', ' ']
    ((splitDotSpace (pyStrip text.data)).take max_sentences)
  if joined.isEmpty then "No content provided." else String.mk joined

/-! ## Concrete sample inputs used by the witness theorems -/

/-- A store whose module import fails (`database` absent). -/
def sampleDb : Database := ⟨false, fun _ _ => .ok (), fun _ _ => .ok []⟩

/-- A store whose module imports but whose operations fail. -/
def sampleDb2 : Database :=
  ⟨true, fun _ _ => .error "write failed", fun _ _ => .error "read failed"⟩

/-- A 10-byte upload named `a.txt`. -/
def sampleFile : UploadFile :=
  ⟨"a.txt", [0, 1, 2, 3, 4, 5, 6, 7, 8, 9], some "text/plain"⟩

/-- Another 10-byte upload named `a.txt` with different bytes. -/
def sampleFile2 : UploadFile :=
  ⟨"a.txt", [9, 9, 9, 9, 9, 9, 9, 9, 9, 9], some "text/plain"⟩

/-- The response produced for a 10-byte `receipt` extraction of `a.txt`. -/
def sampleReceiptResponse : ExtractResponse :=
  ⟨"Receipt Scanner", "a.txt", some 10, some "text/plain",
   "Parsed Receipt Scanner for a.txt (demo)", demoData "receipt"⟩

/-! ## Helper lemmas -/

/-- `log_job` swallows every exception, so it always returns `.ok ()`. -/
lemma log_job_ok (db : Database) (job_type filename : String)
    (size : Option Int) (status : String) (summary : String)
    (meta : Option Meta) :
    log_job db job_type filename size status summary meta = .ok () := by
  unfold log_job
  cases log_job_body db job_type filename size status summary meta <;> rfl

/-- Evaluation of `extract_document` on a job type present in the
allow-list. -/
lemma extract_document_valid (db : Database) (jt tool : String)
    (file : UploadFile) (opts : Option String)
    (h : ALLOWED_EXTRACT_TYPES.lookup jt = some tool) :
    extract_document db jt file opts =
      (.response ⟨tool, file.filename, some (file.content.length : Int),
                  file.content_type,
                  "Parsed " ++ tool ++ " for " ++ file.filename ++ " (demo)",
                  demoData jt⟩,
       [.fileRead, .auditAttempt]) := by
  unfold extract_document
  rw [h]
  dsimp only
  rw [log_job_ok]

/-- First component of `extract_document_valid`. -/
lemma extract_document_valid_fst (db : Database) (jt tool : String)
    (file : UploadFile) (opts : Option String)
    (h : ALLOWED_EXTRACT_TYPES.lookup jt = some tool) :
    (extract_document db jt file opts).1 =
      .response ⟨tool, file.filename, some (file.content.length : Int),
                 file.content_type,
                 "Parsed " ++ tool ++ " for " ++ file.filename ++ " (demo)",
                 demoData jt⟩ := by
  rw [extract_document_valid db jt tool file opts h]

/-- A job type outside the allow-list has no entry in the mapping. -/
lemma lookup_none_of_not_mem (jt : String)
    (h : jt ∉ ["bank_statement", "invoice", "receipt", "salary_slip",
               "credit_card", "table_extract"]) :
    ALLOWED_EXTRACT_TYPES.lookup jt = none := by
  simp only [List.mem_cons, List.mem_singleton, not_or] at h
  obtain ⟨h1, h2, h3, h4, h5, h6, -⟩ := h
  have e1 : (jt == "bank_statement") = false := beq_eq_false_iff_ne.mpr h1
  have e2 : (jt == "invoice") = false := beq_eq_false_iff_ne.mpr h2
  have e3 : (jt == "receipt") = false := beq_eq_false_iff_ne.mpr h3
  have e4 : (jt == "salary_slip") = false := beq_eq_false_iff_ne.mpr h4
  have e5 : (jt == "credit_card") = false := beq_eq_false_iff_ne.mpr h5
  have e6 : (jt == "table_extract") = false := beq_eq_false_iff_ne.mpr h6
  simp [ALLOWED_EXTRACT_TYPES, List.lookup, e1, e2, e3, e4, e5, e6]

/-! ## Claims -/

/-- C1: for every job type in the closed six-element set and every
uploaded file (and any store and options), `extract_document` returns a
response whose `data` field satisfies the per-job-type field-shape table
of §4.1: keys present with no extras, correct nesting, correct element
types. -/
theorem claim_C1 (db : Database) (jt : String) (file : UploadFile)
    (opts : Option String)
    (h : jt ∈ ["bank_statement", "invoice", "receipt", "salary_slip",
               "credit_card", "table_extract"]) :
    ∃ r, (extract_document db jt file opts).1 = .response r ∧
      specShape jt r.data = true := by
  simp only [List.mem_cons, List.not_mem_nil, or_false] at h
  rcases h with h | h | h | h | h | h <;> subst h
  · exact ⟨_, extract_document_valid_fst db "bank_statement"
      "Bank Statement Converter" file opts rfl, rfl⟩
  · exact ⟨_, extract_document_valid_fst db "invoice"
      "Invoice Scanner" file opts rfl, rfl⟩
  · exact ⟨_, extract_document_valid_fst db "receipt"
      "Receipt Scanner" file opts rfl, rfl⟩
  · exact ⟨_, extract_document_valid_fst db "salary_slip"
      "Salary Slip Converter" file opts rfl, rfl⟩
  · exact ⟨_, extract_document_valid_fst db "credit_card"
      "Credit Card Statement Converter" file opts rfl, rfl⟩
  · exact ⟨_, extract_document_valid_fst db "table_extract"
      "Document Table Extractor" file opts rfl, rfl⟩

/-- Witness for C1 at job type `invoice` and a concrete upload. -/
theorem claim_C1_witness :
    ∃ r, (extract_document sampleDb "invoice" sampleFile none).1 =
        .response r ∧ specShape "invoice" r.data = true :=
  claim_C1 sampleDb "invoice" sampleFile none (by decide)

/-- C2: for any job type outside the closed set, `extract_document`
fails with HTTP 400 and its side-effect trace is empty: the upload is
not read and no audit write is attempted. -/
theorem claim_C2 (db : Database) (jt : String) (file : UploadFile)
    (opts : Option String)
    (h : jt ∉ ["bank_statement", "invoice", "receipt", "salary_slip",
               "credit_card", "table_extract"]) :
    extract_document db jt file opts =
      (.httpError 400 "Unsupported job type", []) := by
  unfold extract_document
  rw [lookup_none_of_not_mem jt h]

/-- Witness for C2 at the job type `unknown_type`. -/
theorem claim_C2_witness :
    extract_document sampleDb "unknown_type" sampleFile none =
      (.httpError 400 "Unsupported job type", []) :=
  claim_C2 sampleDb "unknown_type" sampleFile none (by decide)

/-- C3: `log_job` never raises, for every store and every argument
tuple; the extraction result is identical for any two stores (in
particular for an absent or failing store); and an extraction call never
surfaces an internal exception. -/
theorem claim_C3 :
    (∀ db job_type filename size status summary meta,
       log_job db job_type filename size status summary meta = .ok ()) ∧
    (∀ db db' jt file opts,
       extract_document db jt file opts = extract_document db' jt file opts) ∧
    (∀ db jt file opts e,
       (extract_document db jt file opts).1 ≠ .raised e) := by
  refine ⟨log_job_ok, ?_, ?_⟩
  · intro db db' jt file opts
    unfold extract_document
    cases h : ALLOWED_EXTRACT_TYPES.lookup jt <;> simp [log_job_ok]
  · intro db jt file opts e
    cases h : ALLOWED_EXTRACT_TYPES.lookup jt
    · unfold extract_document
      rw [h]
      simp
    · rw [extract_document_valid db jt _ file opts h]
      simp

/-- Witness for C3 at a concrete absent store and concrete arguments. -/
theorem claim_C3_witness :
    log_job sampleDb "receipt" "a.txt" (some 10) "success" "s" none = .ok () ∧
    extract_document sampleDb "receipt" sampleFile none =
      extract_document sampleDb2 "receipt" sampleFile none ∧
    (extract_document sampleDb "receipt" sampleFile none).1 ≠ .raised "boom" :=
  ⟨claim_C3.1 sampleDb "receipt" "a.txt" (some 10) "success" "s" none,
   claim_C3.2.1 sampleDb sampleDb2 "receipt" sampleFile none,
   claim_C3.2.2 sampleDb "receipt" sampleFile none "boom"⟩

/-- C4: whenever `extract_document` returns a response, its `size_bytes`
field equals the byte length of the uploaded content. -/
theorem claim_C4 (db : Database) (jt : String) (file : UploadFile)
    (opts : Option String) (r : ExtractResponse)
    (h : (extract_document db jt file opts).1 = .response r) :
    r.size_bytes = some (file.content.length : Int) := by
  cases hl : ALLOWED_EXTRACT_TYPES.lookup jt with
  | none =>
    unfold extract_document at h
    rw [hl] at h
    simp at h
  | some tool =>
    rw [extract_document_valid db jt tool file opts hl] at h
    injection h with h
    subst h
    rfl

/-- Witness for C4 at a concrete 10-byte `receipt` extraction. -/
theorem claim_C4_witness :
    (extract_document sampleDb "receipt" sampleFile none).1 =
      .response sampleReceiptResponse ∧
    sampleReceiptResponse.size_bytes = some 10 :=
  ⟨rfl, claim_C4 sampleDb "receipt" sampleFile none sampleReceiptResponse rfl⟩

/-- C5: whenever `extract_document` returns a response, its `tool` field
is the display name registered for the job type in
`ALLOWED_EXTRACT_TYPES`, and its `summary` is exactly
`"Parsed {tool} for {filename} (demo)"`; hence the summary contains the
uploaded filename verbatim as a substring. -/
theorem claim_C5 (db : Database) (jt : String) (file : UploadFile)
    (opts : Option String) (r : ExtractResponse)
    (h : (extract_document db jt file opts).1 = .response r) :
    ALLOWED_EXTRACT_TYPES.lookup jt = some r.tool ∧
    r.summary = "Parsed " ++ r.tool ++ " for " ++ file.filename ++ " (demo)" ∧
    ∃ pre post, r.summary = pre ++ file.filename ++ post := by
  cases hl : ALLOWED_EXTRACT_TYPES.lookup jt with
  | none =>
    unfold extract_document at h
    rw [hl] at h
    simp at h
  | some tool =>
    rw [extract_document_valid db jt tool file opts hl] at h
    injection h with h
    subst h
    exact ⟨rfl, rfl, "Parsed " ++ tool ++ " for ", " (demo)", rfl⟩

/-- Witness for C5 at a concrete `receipt` extraction. -/
theorem claim_C5_witness :
    (extract_document sampleDb "receipt" sampleFile none).1 =
      .response sampleReceiptResponse ∧
    ALLOWED_EXTRACT_TYPES.lookup "receipt" = some sampleReceiptResponse.tool ∧
    sampleReceiptResponse.summary =
      "Parsed " ++ sampleReceiptResponse.tool ++ " for " ++
        sampleFile.filename ++ " (demo)" ∧
    ∃ pre post, sampleReceiptResponse.summary =
      pre ++ sampleFile.filename ++ post :=
  ⟨rfl, claim_C5 sampleDb "receipt" sampleFile none sampleReceiptResponse rfl⟩

/-- C6: for every text and every natural `max_sentences`, `summarize`
agrees with the spec-side summarizer (strip, split on `". "`, take the
first `max_sentences` fragments, rejoin with `". "`, with the fixed
fallback on an empty result); and the concrete scenario
`summarize "A. B. C. D." 2 = "A. B"` holds. -/
theorem claim_C6 :
    (∀ (text : String) (n : Nat), summarize text n = summarizeSpec text n) ∧
    summarize "A. B. C. D." 2 = "A. B" := by
  constructor
  · intro text n
    have h0 : (0 : Int) ≤ (n : Int) := Int.natCast_nonneg n
    simp [summarize, summarizeSpec, pySliceTo, h0, Int.toNat_natCast]
  · rfl

/-- C7: extracting any 10-byte upload named `a.txt` with job type
`receipt` yields `tool = "Receipt Scanner"`, `size_bytes = 10`,
`summary = "Parsed Receipt Scanner for a.txt (demo)"`, and
`data.total = 4.26`. -/
theorem claim_C7 (db : Database) (content : Bytes) (ct : Option String)
    (opts : Option String) (h : content.length = 10) :
    ∃ r, (extract_document db "receipt" ⟨"a.txt", content, ct⟩ opts).1 =
        .response r ∧
      r.tool = "Receipt Scanner" ∧ r.size_bytes = some 10 ∧
      r.summary = "Parsed Receipt Scanner for a.txt (demo)" ∧
      getField r.data "total" = some (.num 4.26) := by
  refine ⟨_, extract_document_valid_fst db "receipt" "Receipt Scanner"
    ⟨"a.txt", content, ct⟩ opts rfl, rfl, ?_, rfl, rfl⟩
  show some ((content.length : Int)) = some 10
  simp [h]

/-- Witness for C7 at a concrete 10-byte upload. -/
theorem claim_C7_witness :
    ∃ r, (extract_document sampleDb "receipt" sampleFile none).1 =
        .response r ∧
      r.tool = "Receipt Scanner" ∧ r.size_bytes = some 10 ∧
      r.summary = "Parsed Receipt Scanner for a.txt (demo)" ∧
      getField r.data "total" = some (.num 4.26) :=
  claim_C7 sampleDb sampleFile.content (some "text/plain") none rfl

/-- C8: whenever the body of `list_jobs` fails for any reason (store
module absent, read error), `list_jobs` returns `{items: []}` instead of
propagating the error. -/
theorem claim_C8 (db : Database) (limit : Int) (e : String)
    (h : list_jobs_body db limit = .error e) :
    list_jobs db limit = ⟨[]⟩ := by
  unfold list_jobs
  rw [h]

/-- Witness for C8 at a concrete absent store. -/
theorem claim_C8_witness :
    list_jobs_body sampleDb 20 = .error "ImportError" ∧
    list_jobs sampleDb 20 = ⟨[]⟩ :=
  ⟨rfl, claim_C8 sampleDb 20 "ImportError" rfl⟩

/-- C9: two extraction calls with the same job type, filename and
content type, whose uploads have the same byte length, produce identical
results — for any stores, any option strings, and any file bytes; so the
response depends only on job type, filename, content type, and content
length. -/
theorem claim_C9 (db db' : Database) (jt : String) (f f' : UploadFile)
    (o o' : Option String)
    (hfn : f.filename = f'.filename)
    (hct : f.content_type = f'.content_type)
    (hlen : f.content.length = f'.content.length) :
    (extract_document db jt f o).1 = (extract_document db' jt f' o').1 := by
  cases hl : ALLOWED_EXTRACT_TYPES.lookup jt
  · unfold extract_document
    rw [hl]
  · rw [extract_document_valid_fst db jt _ f o hl,
        extract_document_valid_fst db' jt _ f' o' hl]
    rw [hfn, hct, hlen]

/-- Witness for C9: two concrete calls with different stores, bytes and
options but equal filename, content type and length give equal results. -/
theorem claim_C9_witness :
    sampleFile.filename = sampleFile2.filename ∧
    sampleFile.content_type = sampleFile2.content_type ∧
    sampleFile.content.length = sampleFile2.content.length ∧
    (extract_document sampleDb "invoice" sampleFile none).1 =
      (extract_document sampleDb2 "invoice" sampleFile2 (some "opts")).1 :=
  ⟨rfl, rfl, rfl,
   claim_C9 sampleDb sampleDb2 "invoice" sampleFile sampleFile2 none
     (some "opts") rfl rfl rfl⟩

/-- C10: for every text, `summarize text 0` returns the fixed fallback
string "No content provided.", because the first zero fragments rejoin
to the empty string. -/
theorem claim_C10 (text : String) :
    summarize text 0 = "No content provided." := by
  simp [summarize, pySliceTo, List.intercalate]
